import Mathlib

/-!
Verification development for the addon lifecycle manager of the Fork 3D
modeling software (source file Pearl/Pearl.addons.py, class AddonManager).

The Python class keeps three dictionaries: loaded_addons, active_addons and
addon_metadata, all keyed by the addon name.  Dictionaries are modelled as
association lists with Python dict semantics (assignment overwrites an
existing binding in place, otherwise appends; del removes the binding).
An addon module is modelled as a record of its optional metadata attributes
(double-underscore version, author, doc, dependencies) together with an
attribute table mapping names to either a callable with a fixed outcome or
a non-callable value.  Filesystem and import effects are captured by an
environment: a function from addon names to an optional module (the result
of importlib.import_module) and a function from addon names to the state of
the optional metadata JSON file.  Each public operation additionally
returns the list of observable events it performed (import attempted,
metadata resolved, initialize or shutdown invoked), so that ordering
properties such as capability validation happening before metadata
resolution are expressible.
-/

/-- Outcome of calling a Python callable: a normal return value or a raised
exception carrying a message. -/
inductive CallResult where
  | ok (v : String)
  | exn (msg : String)
deriving DecidableEq

/-- A module attribute: either a callable whose invocation has a fixed
outcome, or a non-callable value (calling it raises a TypeError). -/
inductive ModAttr where
  | callable (r : CallResult)
  | nonCallable (v : String)
deriving DecidableEq

/-- An imported addon module: the optional metadata attributes read by
getattr in the source, plus the table of its other attributes. -/
structure AddonModule where
  version : Option String
  author : Option String
  doc : Option String
  dependencies : Option (List String)
  attrs : List (String × ModAttr)
deriving DecidableEq

/-- Association-list lookup, modelling Python dict membership and item
access. -/
def alistLookup {α : Type} (l : List (String × α)) (k : String) : Option α :=
  match l with
  | [] => none
  | (k1, v) :: rest => if k1 = k then some v else alistLookup rest k

/-- Association-list assignment, modelling Python dict item assignment:
an existing binding is overwritten in place, otherwise the new binding is
appended at the end. -/
def alistInsert {α : Type} (l : List (String × α)) (k : String) (v : α) :
    List (String × α) :=
  match l with
  | [] => [(k, v)]
  | (k1, v1) :: rest =>
    if k1 = k then (k, v) :: rest else (k1, v1) :: alistInsert rest k v

/-- Association-list deletion, modelling the Python del statement: the
binding for the key is removed. -/
def alistErase {α : Type} (l : List (String × α)) (k : String) :
    List (String × α) :=
  match l with
  | [] => []
  | (k1, v1) :: rest =>
    if k1 = k then rest else (k1, v1) :: alistErase rest k

/-- The duck-typing check of the source at load time: hasattr together with
callable (Pearl.addons.py lines 65-69). -/
def hasCallableAttr (m : AddonModule) (name : String) : Bool :=
  match alistLookup m.attrs name with
  | some (ModAttr.callable _) => true
  | _ => false

/-- Attribute access followed by a call, performed inside a try block:
a missing attribute raises AttributeError, a non-callable attribute raises
TypeError, a callable produces its fixed outcome. -/
def callAttr (m : AddonModule) (name : String) : CallResult :=
  match alistLookup m.attrs name with
  | some (ModAttr.callable r) => r
  | some (ModAttr.nonCallable _) => CallResult.exn "TypeError: object is not callable"
  | none => CallResult.exn "AttributeError"

/-- The resolved metadata record built by load_addon_metadata
(Pearl.addons.py lines 92-98). -/
structure AddonMetadata where
  name : String
  version : String
  author : String
  description : String
  dependencies : List String
deriving DecidableEq

/-- The content of an external metadata JSON record: any subset of the
metadata fields may be present; present fields override unit-declared
values via dict update. -/
structure ExternalMetadata where
  name : Option String
  version : Option String
  author : Option String
  description : Option String
  dependencies : Option (List String)
deriving DecidableEq

/-- State of the optional external metadata file for one addon: absent,
present but failing to parse (json.JSONDecodeError), or a parsed record. -/
inductive ExternalSource where
  | absent
  | malformed
  | record (r : ExternalMetadata)

/-- The environment the manager runs in: what importing a given addon name
produces, and the state of the metadata file of each addon. -/
structure AddonEnv where
  modules : String → Option AddonModule
  metaFiles : String → ExternalSource

/-- The dict update of the base metadata with the fields present in the
external record (Pearl.addons.py line 106). -/
def updateMetadata (base : AddonMetadata) (r : ExternalMetadata) : AddonMetadata :=
  { name := r.name.getD base.name
    version := r.version.getD base.version
    author := r.author.getD base.author
    description := r.description.getD base.description
    dependencies := r.dependencies.getD base.dependencies }

/-- Translation of AddonManager._load_addon_metadata: build the defaulted
record from the declared attributes of the module, then merge the external
metadata file if it exists and parses; a parse failure only logs a warning
and the defaulted record is kept (Pearl.addons.py lines 84-110). -/
def load_addon_metadata (env : AddonEnv) (addon_name : String)
    (addon_module : AddonModule) : AddonMetadata :=
  let metadata : AddonMetadata :=
    { name := addon_name
      version := addon_module.version.getD "Unknown"
      author := addon_module.author.getD "Unknown"
      description := addon_module.doc.getD "No description provided."
      dependencies := addon_module.dependencies.getD [] }
  match env.metaFiles addon_name with
  | ExternalSource.absent => metadata
  | ExternalSource.malformed => metadata
  | ExternalSource.record r => updateMetadata metadata r

/-- The three registries of AddonManager (Pearl.addons.py lines 26-28). -/
structure ManagerState where
  loaded_addons : List (String × AddonModule)
  active_addons : List (String × AddonModule)
  addon_metadata : List (String × AddonMetadata)
deriving DecidableEq

/-- The registry at construction time: all three dicts empty. -/
def emptyState : ManagerState :=
  { loaded_addons := [], active_addons := [], addon_metadata := [] }

/-- Observable events performed by an operation. -/
inductive Event where
  | materialize (id : String)
  | resolveMetadata (id : String)
  | initCall (id : String)
  | shutdownCall (id : String)
deriving DecidableEq

/-- Exit points of load_addon; only success corresponds to the Python
method returning True. -/
inductive LoadResult where
  | alreadyLoaded
  | importFailed
  | missingInitialize
  | missingShutdown
  | success
deriving DecidableEq

/-- Translation of AddonManager.load_addon (Pearl.addons.py lines 40-82):
refuse a duplicate load; import the module; validate that initialize and
shutdown exist and are callable; resolve metadata; register the metadata
and then the module.  Every failure is caught and leaves the state
unchanged. -/
def load_addon (env : AddonEnv) (addon_name : String) (s : ManagerState) :
    LoadResult × ManagerState × List Event :=
  if (alistLookup s.loaded_addons addon_name).isSome then
    (LoadResult.alreadyLoaded, s, [])
  else
    match env.modules addon_name with
    | none => (LoadResult.importFailed, s, [Event.materialize addon_name])
    | some addon_module =>
      if hasCallableAttr addon_module "initialize" then
        if hasCallableAttr addon_module "shutdown" then
          let metadata := load_addon_metadata env addon_name addon_module
          (LoadResult.success,
           { s with
               addon_metadata := alistInsert s.addon_metadata addon_name metadata
               loaded_addons := alistInsert s.loaded_addons addon_name addon_module },
           [Event.materialize addon_name, Event.resolveMetadata addon_name])
        else
          (LoadResult.missingShutdown, s, [Event.materialize addon_name])
      else
        (LoadResult.missingInitialize, s, [Event.materialize addon_name])

/-- Exit points of check_dependencies: the dict access
addon_metadata[addon_name] can raise KeyError, and the first dependency
not present in active_addons raises the missing-dependency ImportError. -/
inductive DepCheckResult where
  | ok
  | keyError
  | missingDependency (dep : String)
deriving DecidableEq

/-- Translation of AddonManager._check_dependencies (Pearl.addons.py lines
145-155): walk the declared dependency list in order and fail on the first
entry that is not in active_addons. -/
def check_dependencies (addon_name : String) (s : ManagerState) : DepCheckResult :=
  match alistLookup s.addon_metadata addon_name with
  | none => DepCheckResult.keyError
  | some md =>
    match md.dependencies.find? (fun dep => (alistLookup s.active_addons dep).isNone) with
    | some dep => DepCheckResult.missingDependency dep
    | none => DepCheckResult.ok

/-- Exit points of activate_addon; only success corresponds to the Python
method returning True. -/
inductive ActivateResult where
  | notLoaded
  | alreadyActive
  | metadataKeyError
  | missingDependency (dep : String)
  | initFailed (msg : String)
  | success
deriving DecidableEq

/-- Translation of AddonManager.activate_addon (Pearl.addons.py lines
112-143): guard on loaded and not-yet-active, check dependencies, invoke
the initialize attribute of the module, and only then record the module in
active_addons.  Every exception is caught and leaves the state
unchanged. -/
def activate_addon (addon_name : String) (s : ManagerState) :
    ActivateResult × ManagerState × List Event :=
  match alistLookup s.loaded_addons addon_name with
  | none => (ActivateResult.notLoaded, s, [])
  | some addon_module =>
    if (alistLookup s.active_addons addon_name).isSome then
      (ActivateResult.alreadyActive, s, [])
    else
      match check_dependencies addon_name s with
      | DepCheckResult.keyError => (ActivateResult.metadataKeyError, s, [])
      | DepCheckResult.missingDependency dep =>
        (ActivateResult.missingDependency dep, s, [])
      | DepCheckResult.ok =>
        match callAttr addon_module "initialize" with
        | CallResult.exn msg =>
          (ActivateResult.initFailed msg, s, [Event.initCall addon_name])
        | CallResult.ok _ =>
          (ActivateResult.success,
           { s with active_addons := alistInsert s.active_addons addon_name addon_module },
           [Event.initCall addon_name])

/-- Exit points of deactivate_addon. -/
inductive DeactivateResult where
  | notActive
  | shutdownFailed (msg : String)
  | success
deriving DecidableEq

/-- Translation of AddonManager.deactivate_addon (Pearl.addons.py lines
157-181): guard on active, invoke the shutdown attribute of the module, and
only then delete the active binding.  A failing shutdown is caught and
leaves the state unchanged. -/
def deactivate_addon (addon_name : String) (s : ManagerState) :
    DeactivateResult × ManagerState × List Event :=
  match alistLookup s.active_addons addon_name with
  | none => (DeactivateResult.notActive, s, [])
  | some addon_module =>
    match callAttr addon_module "shutdown" with
    | CallResult.exn msg =>
      (DeactivateResult.shutdownFailed msg, s, [Event.shutdownCall addon_name])
    | CallResult.ok _ =>
      (DeactivateResult.success,
       { s with active_addons := alistErase s.active_addons addon_name },
       [Event.shutdownCall addon_name])

/-- Translation of AddonManager.reload_addon (Pearl.addons.py lines
212-239): guard on loaded; record whether the addon was active; if it was,
call deactivate_addon and ignore its result (exactly as the source does on
line 227); delete the loaded and metadata bindings; re-run load_addon; on
load success re-activate when previously active, returning the activation
result, otherwise return the load result. -/
def reload_addon (env : AddonEnv) (addon_name : String) (s : ManagerState) :
    Bool × ManagerState × List Event :=
  match alistLookup s.loaded_addons addon_name with
  | none => (false, s, [])
  | some _ =>
    let was_active := (alistLookup s.active_addons addon_name).isSome
    let d := deactivate_addon addon_name s
    let s1 := if was_active then d.2.1 else s
    let ev1 := if was_active then d.2.2 else []
    let s2 : ManagerState :=
      { s1 with
          loaded_addons := alistErase s1.loaded_addons addon_name
          addon_metadata := alistErase s1.addon_metadata addon_name }
    let l := load_addon env addon_name s2
    if l.1 = LoadResult.success then
      if was_active then
        let a := activate_addon addon_name l.2.1
        (decide (a.1 = ActivateResult.success), a.2.1, ev1 ++ l.2.2 ++ a.2.2)
      else
        (true, l.2.1, ev1 ++ l.2.2)
    else
      (false, l.2.1, ev1 ++ l.2.2)

/-- Exit points of execute_addon_function: the not-active ValueError, the
missing-attribute AttributeError, the TypeError raised by calling a
non-callable attribute, an exception propagated from the callable itself,
or the return value of the callable. -/
inductive InvokeResult where
  | notActive
  | capabilityNotFound
  | notCallable
  | unitFailure (msg : String)
  | ok (v : String)
deriving DecidableEq

/-- Translation of AddonManager.execute_addon_function (Pearl.addons.py
lines 257-276): require the addon to be active, require the attribute to
exist via hasattr, then call it; note the source never checks that the
attribute is callable, so a non-callable attribute fails at the call
itself.  The function reads the registry but never mutates it. -/
def execute_addon_function (addon_name : String) (function_name : String)
    (s : ManagerState) : InvokeResult :=
  match alistLookup s.active_addons addon_name with
  | none => InvokeResult.notActive
  | some addon_module =>
    match alistLookup addon_module.attrs function_name with
    | none => InvokeResult.capabilityNotFound
    | some (ModAttr.nonCallable _) => InvokeResult.notCallable
    | some (ModAttr.callable (CallResult.exn msg)) => InvokeResult.unitFailure msg
    | some (ModAttr.callable (CallResult.ok v)) => InvokeResult.ok v

/-- One public operation of the manager, carrying the environment it runs
against where the operation touches the filesystem or importer. -/
inductive Op where
  | load (env : AddonEnv) (id : String)
  | activate (id : String)
  | deactivate (id : String)
  | reload (env : AddonEnv) (id : String)
  | invoke (id : String) (fn : String)

/-- The state reached by one operation (results and events dropped). -/
def applyOp (op : Op) (s : ManagerState) : ManagerState :=
  match op with
  | Op.load env id => (load_addon env id s).2.1
  | Op.activate id => (activate_addon id s).2.1
  | Op.deactivate id => (deactivate_addon id s).2.1
  | Op.reload env id => (reload_addon env id s).2.1
  | Op.invoke _ _ => s

/-- The state reached by a sequence of public operations. -/
def runOps (ops : List Op) (s : ManagerState) : ManagerState :=
  ops.foldl (fun st op => applyOp op st) s

/-! ### Association-list lemmas -/

theorem alistLookup_insert_self {α : Type} (l : List (String × α)) (k : String) (v : α) :
    alistLookup (alistInsert l k v) k = some v := by
  induction l with
  | nil => simp [alistInsert, alistLookup]
  | cons p rest ih =>
    obtain ⟨k1, v1⟩ := p
    by_cases h : k1 = k <;> simp [alistInsert, alistLookup, h, ih]

theorem alistLookup_insert_ne {α : Type} (l : List (String × α)) (k k2 : String) (v : α)
    (h : k2 ≠ k) : alistLookup (alistInsert l k v) k2 = alistLookup l k2 := by
  have hk : ¬ k = k2 := fun h2 => h h2.symm
  induction l with
  | nil => simp [alistInsert, alistLookup, hk]
  | cons p rest ih =>
    obtain ⟨k1, v1⟩ := p
    by_cases h1 : k1 = k
    · subst h1
      simp [alistInsert, alistLookup, hk]
    · simp [alistInsert, alistLookup, h1, ih]

theorem alistLookup_erase_ne {α : Type} (l : List (String × α)) (k k2 : String)
    (h : k2 ≠ k) : alistLookup (alistErase l k) k2 = alistLookup l k2 := by
  have hk : ¬ k = k2 := fun h2 => h h2.symm
  induction l with
  | nil => simp [alistErase, alistLookup]
  | cons p rest ih =>
    obtain ⟨k1, v1⟩ := p
    by_cases h1 : k1 = k
    · subst h1
      simp [alistErase, alistLookup, hk]
    · simp [alistErase, alistLookup, h1, ih]

theorem mem_alistInsert {α : Type} (l : List (String × α)) (k : String) (v : α)
    (p : String × α) (h : p ∈ alistInsert l k v) : p = (k, v) ∨ p ∈ l := by
  induction l with
  | nil => simpa [alistInsert] using h
  | cons q rest ih =>
    obtain ⟨k1, v1⟩ := q
    by_cases h1 : k1 = k
    · simp [alistInsert, h1] at h
      rcases h with h | h
      · exact Or.inl (by simp [h])
      · exact Or.inr (by simp [h])
    · simp [alistInsert, h1] at h
      rcases h with h | h
      · exact Or.inr (by simp [h])
      · rcases ih h with h2 | h2
        · exact Or.inl h2
        · exact Or.inr (by simp [h2])

theorem mem_alistErase {α : Type} (l : List (String × α)) (k : String)
    (p : String × α) (h : p ∈ alistErase l k) : p ∈ l := by
  induction l with
  | nil => simp [alistErase] at h
  | cons q rest ih =>
    obtain ⟨k1, v1⟩ := q
    by_cases h1 : k1 = k
    · simp [alistErase, h1] at h
      simp [h]
    · simp [alistErase, h1] at h
      rcases h with h | h
      · simp [h]
      · simp [ih h]

theorem alistLookup_eq_none_iff {α : Type} (l : List (String × α)) (k : String) :
    alistLookup l k = none ↔ ∀ p ∈ l, p.1 ≠ k := by
  induction l with
  | nil => simp [alistLookup]
  | cons q rest ih =>
    obtain ⟨k1, v1⟩ := q
    by_cases h1 : k1 = k <;> simp [alistLookup, h1, ih]

theorem alistLookup_mem {α : Type} (l : List (String × α)) (k : String) (v : α)
    (h : alistLookup l k = some v) : (k, v) ∈ l := by
  induction l with
  | nil => simp [alistLookup] at h
  | cons q rest ih =>
    obtain ⟨k1, v1⟩ := q
    by_cases h1 : k1 = k
    · subst h1
      simp [alistLookup] at h
      simp [h]
    · simp [alistLookup, h1] at h
      simp [ih h]

/-- Keys of an association list are pairwise distinct; true of every state
the manager can reach, and needed where a del must remove the only
binding. -/
abbrev NoDupKeys {α : Type} (l : List (String × α)) : Prop :=
  l.Pairwise (fun p q => p.1 ≠ q.1)

theorem alistLookup_erase_self {α : Type} (l : List (String × α)) (k : String)
    (h : NoDupKeys l) : alistLookup (alistErase l k) k = none := by
  induction l with
  | nil => simp [alistErase, alistLookup]
  | cons q rest ih =>
    obtain ⟨k1, v1⟩ := q
    rw [NoDupKeys, List.pairwise_cons] at h
    by_cases h1 : k1 = k
    · subst h1
      rw [alistErase]
      simp only [if_pos rfl]
      rw [alistLookup_eq_none_iff]
      intro p hp hk
      exact h.1 p hp (hk.symm)
    · rw [alistErase]
      simp only [if_neg h1]
      rw [alistLookup]
      simp only [if_neg h1]
      exact ih h.2

theorem find?_first_unsatisfied {α : Type} (p : α → Bool) (l1 l2 : List α) (d : α)
    (h1 : ∀ x ∈ l1, p x = false) (hd : p d = true) :
    (l1 ++ d :: l2).find? p = some d := by
  induction l1 with
  | nil => simp [List.find?, hd]
  | cons a rest ih =>
    have ha : p a = false := h1 a (by simp)
    simp only [List.cons_append, List.find?, ha]
    exact ih (fun x hx => h1 x (by simp [hx]))

/-! ### State-shape lemmas for the lifecycle operations -/

theorem load_addon_state_cases (env : AddonEnv) (j : String) (s : ManagerState) :
    (load_addon env j s).2.1 = s ∨
    ∃ m, env.modules j = some m ∧
      (load_addon env j s).2.1 =
        { s with
            addon_metadata := alistInsert s.addon_metadata j (load_addon_metadata env j m)
            loaded_addons := alistInsert s.loaded_addons j m } := by
  by_cases h0 : (alistLookup s.loaded_addons j).isSome = true
  · left; simp [load_addon, h0]
  · rcases hm : env.modules j with _ | m
    · left; simp [load_addon, h0, hm]
    · by_cases hi : hasCallableAttr m "initialize" = true
      · by_cases hs : hasCallableAttr m "shutdown" = true
        · right; exact ⟨m, rfl, by simp [load_addon, h0, hm, hi, hs]⟩
        · left; simp [load_addon, h0, hm, hi, hs]
      · left; simp [load_addon, h0, hm, hi]

theorem activate_addon_state_cases (j : String) (s : ManagerState) :
    (activate_addon j s).2.1 = s ∨
    ∃ m, alistLookup s.loaded_addons j = some m ∧
      (activate_addon j s).2.1 =
        { s with active_addons := alistInsert s.active_addons j m } := by
  rcases hL : alistLookup s.loaded_addons j with _ | m
  · left; simp [activate_addon, hL]
  · by_cases hA : (alistLookup s.active_addons j).isSome = true
    · left; simp [activate_addon, hL, hA]
    · rcases hC : check_dependencies j s with _ | _ | dep
      · rcases hI : callAttr m "initialize" with v | msg
        · right; exact ⟨m, rfl, by simp [activate_addon, hL, hA, hC, hI]⟩
        · left; simp [activate_addon, hL, hA, hC, hI]
      · left; simp [activate_addon, hL, hA, hC]
      · left; simp [activate_addon, hL, hA, hC]

theorem deactivate_addon_state_cases (j : String) (s : ManagerState) :
    (deactivate_addon j s).2.1 = s ∨
    (deactivate_addon j s).2.1 = { s with active_addons := alistErase s.active_addons j } := by
  rcases hA : alistLookup s.active_addons j with _ | m
  · left; simp [deactivate_addon, hA]
  · rcases hS : callAttr m "shutdown" with v | msg
    · right; simp [deactivate_addon, hA, hS]
    · left; simp [deactivate_addon, hA, hS]

/-! ### The self-dependency invariant (claim C10) -/

/-- The environment only ever materializes the identifier as a module whose
resolved metadata declares the identifier among its own dependencies. -/
def envSelfDep (env : AddonEnv) (id : String) : Bool :=
  match env.modules id with
  | none => true
  | some m => decide (id ∈ (load_addon_metadata env id m).dependencies)

/-- An operation respects the self-dependency assumption for the
identifier: loads and reloads of that identifier run against environments
satisfying envSelfDep; all other operations are unconstrained. -/
def opSelfDep (id : String) : Op → Bool
  | Op.load env j => if j = id then envSelfDep env id else true
  | Op.reload env j => if j = id then envSelfDep env id else true
  | _ => true

/-- Invariant: the identifier has no active binding, and every metadata
binding recorded for it declares it among its own dependencies. -/
def SelfDepInvariant (id : String) (s : ManagerState) : Prop :=
  alistLookup s.active_addons id = none ∧
  ∀ p ∈ s.addon_metadata, p.1 = id → id ∈ p.2.dependencies

theorem activate_addon_selfdep_fails (id : String) (s : ManagerState)
    (h1 : alistLookup s.active_addons id = none)
    (h2 : ∀ p ∈ s.addon_metadata, p.1 = id → id ∈ p.2.dependencies) :
    (activate_addon id s).1 ≠ ActivateResult.success ∧ (activate_addon id s).2.1 = s := by
  rcases hL : alistLookup s.loaded_addons id with _ | m
  · simp [activate_addon, hL]
  · rcases hmd : alistLookup s.addon_metadata id with _ | md
    · simp [activate_addon, hL, h1, check_dependencies, hmd]
    · have hmem : id ∈ md.dependencies := h2 (id, md) (alistLookup_mem _ _ _ hmd) rfl
      rcases hfd : md.dependencies.find? (fun dep => (alistLookup s.active_addons dep).isNone) with _ | d
      · rw [List.find?_eq_none] at hfd
        exact absurd (by simp [h1] : (alistLookup s.active_addons id).isNone = true) (hfd id hmem)
      · simp [activate_addon, hL, h1, check_dependencies, hmd, hfd]

theorem selfDepInvariant_load (env : AddonEnv) (j id : String) (s : ManagerState)
    (hc : j = id → envSelfDep env id = true)
    (h : SelfDepInvariant id s) : SelfDepInvariant id (load_addon env j s).2.1 := by
  rcases load_addon_state_cases env j s with he | ⟨m, hm, he⟩
  · rw [he]; exact h
  · rw [he]
    refine ⟨h.1, ?_⟩
    intro p hp hpid
    rcases mem_alistInsert _ _ _ _ hp with hpe | hp2
    · have hj : j = id := by rw [hpe] at hpid; exact hpid
      subst hj
      rw [hpe]
      have hd := hc rfl
      simp only [envSelfDep, hm] at hd
      simpa using hd
    · exact h.2 p hp2 hpid

theorem selfDepInvariant_activate (j id : String) (s : ManagerState)
    (h : SelfDepInvariant id s) : SelfDepInvariant id (activate_addon j s).2.1 := by
  by_cases hj : j = id
  · subst hj
    rw [(activate_addon_selfdep_fails j s h.1 h.2).2]
    exact h
  · rcases activate_addon_state_cases j s with he | ⟨m, _, he⟩
    · rw [he]; exact h
    · rw [he]
      refine ⟨?_, h.2⟩
      rw [alistLookup_insert_ne _ _ _ _ (fun h2 => hj h2.symm)]
      exact h.1

theorem selfDepInvariant_deactivate (j id : String) (s : ManagerState)
    (h : SelfDepInvariant id s) : SelfDepInvariant id (deactivate_addon j s).2.1 := by
  rcases deactivate_addon_state_cases j s with he | he
  · rw [he]; exact h
  · rw [he]
    refine ⟨?_, h.2⟩
    rw [alistLookup_eq_none_iff]
    intro p hp
    exact (alistLookup_eq_none_iff _ _).mp h.1 p (mem_alistErase _ _ _ hp)

theorem selfDepInvariant_erase2 (j id : String) (s : ManagerState)
    (h : SelfDepInvariant id s) :
    SelfDepInvariant id
      { s with loaded_addons := alistErase s.loaded_addons j
               addon_metadata := alistErase s.addon_metadata j } := by
  refine ⟨h.1, ?_⟩
  intro p hp hpid
  exact h.2 p (mem_alistErase _ _ _ hp) hpid

theorem selfDepInvariant_reload (env : AddonEnv) (j id : String) (s : ManagerState)
    (hc : j = id → envSelfDep env id = true)
    (h : SelfDepInvariant id s) : SelfDepInvariant id (reload_addon env j s).2.1 := by
  rcases hL : alistLookup s.loaded_addons j with _ | m
  · simp only [reload_addon, hL]
    exact h
  · by_cases hw : (alistLookup s.active_addons j).isSome = true
    · have h1 := selfDepInvariant_deactivate j id s h
      have h2 := selfDepInvariant_erase2 j id _ h1
      have h3 := selfDepInvariant_load env j id _ hc h2
      simp only [reload_addon, hL, hw, if_true]
      split
      · exact selfDepInvariant_activate j id _ h3
      · exact h3
    · simp only [Bool.not_eq_true] at hw
      have h2 := selfDepInvariant_erase2 j id s h
      have h3 := selfDepInvariant_load env j id _ hc h2
      simp only [reload_addon, hL, hw, Bool.false_eq_true, if_false]
      split
      · exact h3
      · exact h3

theorem selfDepInvariant_step (id : String) (op : Op) (s : ManagerState)
    (hop : opSelfDep id op = true) (h : SelfDepInvariant id s) :
    SelfDepInvariant id (applyOp op s) := by
  cases op with
  | load env j =>
    refine selfDepInvariant_load env j id s (fun hj => ?_) h
    simpa [opSelfDep, hj] using hop
  | activate j => exact selfDepInvariant_activate j id s h
  | deactivate j => exact selfDepInvariant_deactivate j id s h
  | reload env j =>
    refine selfDepInvariant_reload env j id s (fun hj => ?_) h
    simpa [opSelfDep, hj] using hop
  | invoke j fn => exact h

theorem selfDepInvariant_runOps (id : String) (ops : List Op) (s : ManagerState)
    (hops : ∀ op ∈ ops, opSelfDep id op = true) (h : SelfDepInvariant id s) :
    SelfDepInvariant id (runOps ops s) := by
  induction ops generalizing s with
  | nil => simpa [runOps] using h
  | cons op rest ih =>
    simp only [runOps, List.foldl_cons]
    have hstep := selfDepInvariant_step id op s (hops op (by simp)) h
    have := ih (applyOp op s) (fun o ho => hops o (by simp [ho])) hstep
    simpa [runOps] using this

/-! ### Characterization lemmas -/

theorem isNone_false_iff_isSome {α : Type} (o : Option α) : o.isNone = false ↔ o.isSome = true := by
  cases o <;> simp

/-- An addon name is loadable from an environment when importing it
produces a module exposing callable initialize and shutdown attributes;
this is the exact success condition of load_addon from a state not holding
the name. -/
def loadable (env : AddonEnv) (id : String) : Bool :=
  match env.modules id with
  | none => false
  | some m => hasCallableAttr m "initialize" && hasCallableAttr m "shutdown"

theorem load_addon_fail_state (env : AddonEnv) (id : String) (s : ManagerState)
    (h : loadable env id = false) (hg : (alistLookup s.loaded_addons id).isSome = false) :
    (load_addon env id s).1 ≠ LoadResult.success ∧ (load_addon env id s).2.1 = s := by
  rcases hm : env.modules id with _ | m
  · constructor <;> simp [load_addon, hg, hm]
  · simp only [loadable, hm] at h
    by_cases hi : hasCallableAttr m "initialize" = true
    · have hs2 : hasCallableAttr m "shutdown" = false := by
        rcases hs3 : hasCallableAttr m "shutdown" with _ | _
        · rfl
        · rw [hi, hs3] at h; cases h
      constructor <;> simp [load_addon, hg, hm, hi, hs2]
    · constructor <;> simp [load_addon, hg, hm, hi]

theorem load_addon_success_state (env : AddonEnv) (id : String) (s : ManagerState)
    (m : AddonModule) (hm : env.modules id = some m)
    (hi : hasCallableAttr m "initialize" = true) (hs : hasCallableAttr m "shutdown" = true)
    (hg : (alistLookup s.loaded_addons id).isSome = false) :
    load_addon env id s =
      (LoadResult.success,
       { s with
           addon_metadata := alistInsert s.addon_metadata id (load_addon_metadata env id m)
           loaded_addons := alistInsert s.loaded_addons id m },
       [Event.materialize id, Event.resolveMetadata id]) := by
  simp [load_addon, hg, hm, hi, hs]

theorem activate_success_iff (s : ManagerState) (id : String) (m : AddonModule)
    (md : AddonMetadata)
    (hm : alistLookup s.loaded_addons id = some m)
    (ha : alistLookup s.active_addons id = none)
    (hmd : alistLookup s.addon_metadata id = some md) :
    ((activate_addon id s).1 = ActivateResult.success ↔
      ((∀ d ∈ md.dependencies, (alistLookup s.active_addons d).isSome = true) ∧
       ∃ v, callAttr m "initialize" = CallResult.ok v)) := by
  rcases hfd : md.dependencies.find? (fun dep => (alistLookup s.active_addons dep).isNone) with _ | d
  · rcases hI : callAttr m "initialize" with v | msg
    · constructor
      · intro _
        refine ⟨?_, v, rfl⟩
        intro d hd
        rw [List.find?_eq_none] at hfd
        have h2 := hfd d hd
        simp only [Bool.not_eq_true] at h2
        exact (isNone_false_iff_isSome _).mp h2
      · intro _
        simp [activate_addon, hm, ha, check_dependencies, hmd, hfd, hI]
    · constructor
      · intro hsucc
        simp [activate_addon, hm, ha, check_dependencies, hmd, hfd, hI] at hsucc
      · rintro ⟨-, v, hv⟩
        cases hv
  · constructor
    · intro hsucc
      simp [activate_addon, hm, ha, check_dependencies, hmd, hfd] at hsucc
    · rintro ⟨hall, -⟩
      have hd1 : d ∈ md.dependencies := List.mem_of_find?_eq_some hfd
      have hd2 := List.find?_some hfd
      simp only [(isNone_false_iff_isSome _).mpr (hall d hd1)] at hd2
      cases hd2

theorem activate_missing_first (s : ManagerState) (id : String) (m : AddonModule)
    (md : AddonMetadata)
    (hm : alistLookup s.loaded_addons id = some m)
    (ha : alistLookup s.active_addons id = none)
    (hmd : alistLookup s.addon_metadata id = some md) :
    ∀ l1 d l2, md.dependencies = l1 ++ d :: l2 →
      (∀ e ∈ l1, (alistLookup s.active_addons e).isSome = true) →
      alistLookup s.active_addons d = none →
      activate_addon id s = (ActivateResult.missingDependency d, s, []) := by
  intro l1 d l2 hdeps hpre hd
  have hfd : md.dependencies.find? (fun dep => (alistLookup s.active_addons dep).isNone) = some d := by
    rw [hdeps]
    apply find?_first_unsatisfied
    · intro x hx
      exact (isNone_false_iff_isSome _).mpr (hpre x hx)
    · simp [hd]
  simp [activate_addon, hm, ha, check_dependencies, hmd, hfd]

/-! ### Concrete fixtures -/

/-- A well-formed addon module whose lifecycle capabilities both succeed. -/
def modOk : AddonModule :=
  { version := none, author := none, doc := none, dependencies := none
    attrs := [("initialize", ModAttr.callable (CallResult.ok "")),
              ("shutdown", ModAttr.callable (CallResult.ok ""))] }

/-- An addon module whose shutdown capability always fails. -/
def modBadShutdown : AddonModule :=
  { version := none, author := none, doc := none, dependencies := none
    attrs := [("initialize", ModAttr.callable (CallResult.ok "")),
              ("shutdown", ModAttr.callable (CallResult.exn "boom"))] }

/-- An addon module whose initialize capability always fails. -/
def modBadInit : AddonModule :=
  { version := none, author := none, doc := none, dependencies := none
    attrs := [("initialize", ModAttr.callable (CallResult.exn "init boom")),
              ("shutdown", ModAttr.callable (CallResult.ok ""))] }

/-- An addon module lacking the shutdown capability. -/
def modNoShutdown : AddonModule :=
  { version := none, author := none, doc := none, dependencies := none
    attrs := [("initialize", ModAttr.callable (CallResult.ok ""))] }

/-- A well-formed active addon module exposing a working capability, a
failing capability, and a non-callable attribute. -/
def modWithX : AddonModule :=
  { version := none, author := none, doc := none, dependencies := none
    attrs := [("initialize", ModAttr.callable (CallResult.ok "")),
              ("shutdown", ModAttr.callable (CallResult.ok "")),
              ("fn", ModAttr.callable (CallResult.ok "result")),
              ("bad", ModAttr.callable (CallResult.exn "oops")),
              ("x", ModAttr.nonCallable "5")] }

/-- Environment in which addon A materializes to modBadShutdown. -/
def envBadShutdownA : AddonEnv :=
  { modules := fun id => if id = "A" then some modBadShutdown else none
    metaFiles := fun _ => ExternalSource.absent }

/-- Environment in which addon A materializes to modBadInit. -/
def envBadInitA : AddonEnv :=
  { modules := fun id => if id = "A" then some modBadInit else none
    metaFiles := fun _ => ExternalSource.absent }

/-- Environment in which addon A materializes to modOk. -/
def envOkA : AddonEnv :=
  { modules := fun id => if id = "A" then some modOk else none
    metaFiles := fun _ => ExternalSource.absent }

/-- Environment in which addon A materializes to modNoShutdown. -/
def envNoShutdownA : AddonEnv :=
  { modules := fun id => if id = "A" then some modNoShutdown else none
    metaFiles := fun _ => ExternalSource.absent }

/-- Environment in which no addon can be imported (the addon file was
removed between operations). -/
def envGone : AddonEnv :=
  { modules := fun _ => none, metaFiles := fun _ => ExternalSource.absent }

/-- Environment in which addon A materializes to modOk but its metadata
file exists and fails to parse. -/
def envMalformedA : AddonEnv :=
  { modules := fun id => if id = "A" then some modOk else none
    metaFiles := fun id => if id = "A" then ExternalSource.malformed else ExternalSource.absent }

/-- Registry holding A loaded and active, where the shutdown of A fails. -/
def stBadShutdownActive : ManagerState :=
  runOps [Op.load envBadShutdownA "A", Op.activate "A"] emptyState

/-- Registry holding A loaded but inactive, where the initialize of A fails. -/
def stLoadedBadInit : ManagerState :=
  runOps [Op.load envBadInitA "A"] emptyState

/-- Registry holding A loaded and active with working capabilities. -/
def stOkActive : ManagerState :=
  runOps [Op.load envOkA "A", Op.activate "A"] emptyState

/-- Registry holding A loaded and active with module modWithX. -/
def stWithX : ManagerState :=
  { loaded_addons := [("A", modWithX)]
    active_addons := [("A", modWithX)]
    addon_metadata := [("A", { name := "A", version := "Unknown", author := "Unknown",
                               description := "No description provided.", dependencies := [] })] }

/-! ### Claim C1 -/

/-- Claim C1 states that from the empty registry every sequence of public
operations keeps the active set inside the loaded set.  The code violates
this: load an addon whose shutdown fails, activate it, then reload it in
an environment where the import now fails.  Reload ignores the failed
deactivation, deletes the loaded and metadata entries, and the re-load
failure leaves the stale active entry behind: afterwards A is active but
not loaded. -/
theorem C1_invariant_violation :
    (alistLookup (runOps [Op.load envBadShutdownA "A", Op.activate "A",
        Op.reload envGone "A"] emptyState).active_addons "A").isSome = true ∧
    alistLookup (runOps [Op.load envBadShutdownA "A", Op.activate "A",
        Op.reload envGone "A"] emptyState).loaded_addons "A" = none ∧
    alistLookup (runOps [Op.load envBadShutdownA "A", Op.activate "A",
        Op.reload envGone "A"] emptyState).addon_metadata "A" = none := by
  decide

/-! ### Claim C2 -/

/-- Claim C2 states that when the deactivation step of reload fails, the
reload aborts with the registry unchanged: the addon stays Active, loaded
and with metadata intact.  The code does not abort: on the registry where
A is active with a failing shutdown, the deactivation step fails, yet
reload proceeds to unregister A; afterwards A is no longer loaded and has
no metadata, so the state differs from the pre-reload state. -/
theorem C2_reload_ignores_failed_deactivation :
    (deactivate_addon "A" stBadShutdownActive).1 = DeactivateResult.shutdownFailed "boom" ∧
    (alistLookup stBadShutdownActive.loaded_addons "A").isSome = true ∧
    (reload_addon envGone "A" stBadShutdownActive).1 = false ∧
    (reload_addon envGone "A" stBadShutdownActive).2.1 ≠ stBadShutdownActive ∧
    alistLookup (reload_addon envGone "A" stBadShutdownActive).2.1.loaded_addons "A" = none ∧
    alistLookup (reload_addon envGone "A" stBadShutdownActive).2.1.addon_metadata "A" = none := by
  decide

/-! ### Claim C3 -/

/-- Claim C3 as stated is false on the code: it asserts that a loaded,
non-active addon transitions to Active if and only if all its declared
dependencies are Active.  Registry stLoadedBadInit holds A loaded,
non-active, with an empty dependency list (so all dependencies are
vacuously Active), yet activation does not transition it to Active,
because the initialize capability fails. -/
theorem C3_cex :
    alistLookup stLoadedBadInit.addon_metadata "A" =
      some { name := "A", version := "Unknown", author := "Unknown",
             description := "No description provided.", dependencies := [] } ∧
    (alistLookup stLoadedBadInit.loaded_addons "A").isSome = true ∧
    alistLookup stLoadedBadInit.active_addons "A" = none ∧
    (activate_addon "A" stLoadedBadInit).1 ≠ ActivateResult.success ∧
    alistLookup ((activate_addon "A" stLoadedBadInit).2.1).active_addons "A" = none := by
  decide

/-- Claim C3 (amended): for every loaded, non-active addon, activate
transitions it to Active if and only if every declared dependency is
currently Active and the initialize capability of the unit succeeds; and when
some dependency is not Active, activate fails with MissingDependency
naming the first unsatisfied dependency in declaration order, performs no
state change, and does not invoke the initialize capability (the returned
event list is empty). -/
theorem C3_activation_amended (s : ManagerState) (id : String) (m : AddonModule)
    (md : AddonMetadata)
    (hm : alistLookup s.loaded_addons id = some m)
    (ha : alistLookup s.active_addons id = none)
    (hmd : alistLookup s.addon_metadata id = some md) :
    ((activate_addon id s).1 = ActivateResult.success ↔
      ((∀ d ∈ md.dependencies, (alistLookup s.active_addons d).isSome = true) ∧
       ∃ v, callAttr m "initialize" = CallResult.ok v)) ∧
    (∀ l1 d l2, md.dependencies = l1 ++ d :: l2 →
      (∀ e ∈ l1, (alistLookup s.active_addons e).isSome = true) →
      alistLookup s.active_addons d = none →
      activate_addon id s = (ActivateResult.missingDependency d, s, [])) :=
  ⟨activate_success_iff s id m md hm ha hmd, activate_missing_first s id m md hm ha hmd⟩

/-- Witness for C3_activation_amended: addon A declares the single
dependency B, which is not active, so activation fails naming B with no
state change and no initialize call. -/
def modDepB : AddonModule :=
  { version := none, author := none, doc := none, dependencies := some ["B"]
    attrs := [("initialize", ModAttr.callable (CallResult.ok "")),
              ("shutdown", ModAttr.callable (CallResult.ok ""))] }

/-- Metadata record of modDepB as resolved with no external file. -/
def mdDepB : AddonMetadata :=
  { name := "A", version := "Unknown", author := "Unknown",
    description := "No description provided.", dependencies := ["B"] }

/-- Registry holding A loaded but inactive with dependency B unknown. -/
def stDepB : ManagerState :=
  { loaded_addons := [("A", modDepB)], active_addons := []
    addon_metadata := [("A", mdDepB)] }

/-- Concrete instance of C3_activation_amended. -/
theorem C3_activation_amended_w :
    activate_addon "A" stDepB = (ActivateResult.missingDependency "B", stDepB, []) :=
  (C3_activation_amended stDepB "A" modDepB mdDepB rfl rfl rfl).2 [] "B" []
    rfl (by simp) rfl

/-! ### Claim C4 -/

/-- Claim C4: a failing lifecycle capability leaves the registry exactly
as before the operation.  If initialize fails during activation of a
loaded, non-active addon whose dependency check passes, the activation
returns the failure and the state is unchanged (the addon stays Loaded and
is not recorded Active); if shutdown fails during deactivation of an
active addon, the deactivation returns the failure and the state is
unchanged (the addon stays Active). -/
theorem C4_lifecycle_failure_rollback (s : ManagerState) (id : String) :
    (∀ m msg, alistLookup s.loaded_addons id = some m →
      alistLookup s.active_addons id = none →
      check_dependencies id s = DepCheckResult.ok →
      callAttr m "initialize" = CallResult.exn msg →
      activate_addon id s = (ActivateResult.initFailed msg, s, [Event.initCall id])) ∧
    (∀ m msg, alistLookup s.active_addons id = some m →
      callAttr m "shutdown" = CallResult.exn msg →
      deactivate_addon id s = (DeactivateResult.shutdownFailed msg, s, [Event.shutdownCall id])) := by
  constructor
  · intro m msg hm ha hc hI
    simp [activate_addon, hm, ha, hc, hI]
  · intro m msg hm hS
    simp [deactivate_addon, hm, hS]

/-- Concrete instance of C4_lifecycle_failure_rollback: failing initialize
on the loaded addon of stLoadedBadInit and failing shutdown on the active
addon of stBadShutdownActive. -/
theorem C4_lifecycle_failure_rollback_w :
    activate_addon "A" stLoadedBadInit =
      (ActivateResult.initFailed "init boom", stLoadedBadInit, [Event.initCall "A"]) ∧
    deactivate_addon "A" stBadShutdownActive =
      (DeactivateResult.shutdownFailed "boom", stBadShutdownActive, [Event.shutdownCall "A"]) :=
  ⟨(C4_lifecycle_failure_rollback stLoadedBadInit "A").1 modBadInit "init boom" rfl rfl rfl rfl,
   (C4_lifecycle_failure_rollback stBadShutdownActive "A").2 modBadShutdown "boom" rfl rfl⟩

/-! ### Claim C5 -/

/-- Claim C5: for an identifier with no registry entry, load validates the
initialize and shutdown capabilities before any metadata resolution or
registration; a missing capability makes load fail, and every load failure
leaves the registry without any entry for the identifier and performs no
metadata resolution. -/
theorem C5_load_validation (env : AddonEnv) (s : ManagerState) (id : String)
    (h1 : alistLookup s.loaded_addons id = none)
    (h2 : alistLookup s.addon_metadata id = none)
    (h3 : alistLookup s.active_addons id = none) :
    (∀ m, env.modules id = some m →
      (hasCallableAttr m "initialize" = false ∨ hasCallableAttr m "shutdown" = false) →
      (load_addon env id s).1 ≠ LoadResult.success) ∧
    ((load_addon env id s).1 ≠ LoadResult.success →
      (load_addon env id s).2.1 = s ∧
      Event.resolveMetadata id ∉ (load_addon env id s).2.2 ∧
      alistLookup (load_addon env id s).2.1.loaded_addons id = none ∧
      alistLookup (load_addon env id s).2.1.addon_metadata id = none ∧
      alistLookup (load_addon env id s).2.1.active_addons id = none) := by
  have hni : (alistLookup s.loaded_addons id).isSome = false := by simp [h1]
  rcases hm : env.modules id with _ | m
  · have he : load_addon env id s = (LoadResult.importFailed, s, [Event.materialize id]) := by
      simp [load_addon, hni, hm]
    constructor
    · intro m2 hm2
      cases hm2
    · intro _
      rw [he]
      exact ⟨rfl, by simp, h1, h2, h3⟩
  · by_cases hi : hasCallableAttr m "initialize" = true
    · by_cases hs : hasCallableAttr m "shutdown" = true
      · have he : (load_addon env id s).1 = LoadResult.success := by
          simp [load_addon, hni, hm, hi, hs]
        constructor
        · intro m2 hm2 hbad
          cases hm2
          rcases hbad with hbad | hbad
          · rw [hi] at hbad; cases hbad
          · rw [hs] at hbad; cases hbad
        · intro hns
          exact absurd he hns
      · have he : load_addon env id s = (LoadResult.missingShutdown, s, [Event.materialize id]) := by
          simp [load_addon, hni, hm, hi, hs]
        constructor
        · intro m2 hm2 _
          rw [he]
          simp
        · intro _
          rw [he]
          exact ⟨rfl, by simp, h1, h2, h3⟩
    · have he : load_addon env id s = (LoadResult.missingInitialize, s, [Event.materialize id]) := by
        simp [load_addon, hni, hm, hi]
      constructor
      · intro m2 hm2 _
        rw [he]
        simp
      · intro _
        rw [he]
        exact ⟨rfl, by simp, h1, h2, h3⟩

/-- Concrete instance of C5_load_validation: loading an addon lacking the
shutdown capability fails, leaves the empty registry empty and never
resolves metadata. -/
theorem C5_load_validation_w :
    (load_addon envNoShutdownA "A" emptyState).1 ≠ LoadResult.success ∧
    (load_addon envNoShutdownA "A" emptyState).2.1 = emptyState ∧
    Event.resolveMetadata "A" ∉ (load_addon envNoShutdownA "A" emptyState).2.2 :=
  have h := C5_load_validation envNoShutdownA emptyState "A" rfl rfl rfl
  have hns := h.1 modNoShutdown rfl (Or.inr rfl)
  ⟨hns, (h.2 hns).1, (h.2 hns).2.1⟩

/-! ### Claim C6 -/

/-- Claim C6: a load of an identifier that is already loaded returns the
already-loaded refusal (False in the source), leaves the registry
identical, performs no import and no metadata resolution (the event list
is empty). -/
theorem C6_duplicate_load (env : AddonEnv) (s : ManagerState) (id : String) (m : AddonModule)
    (h : alistLookup s.loaded_addons id = some m) :
    load_addon env id s = (LoadResult.alreadyLoaded, s, []) ∧
    LoadResult.alreadyLoaded ≠ LoadResult.success := by
  constructor
  · simp [load_addon, h]
  · intro hc
    cases hc

/-- Concrete instance of C6_duplicate_load: loading A again on a registry
already holding A loaded. -/
theorem C6_duplicate_load_w :
    load_addon envBadInitA "A" stLoadedBadInit = (LoadResult.alreadyLoaded, stLoadedBadInit, []) :=
  (C6_duplicate_load envBadInitA stLoadedBadInit "A" modBadInit rfl).1

/-! ### Claim C7 -/

/-- Claim C7: metadata resolution produces a complete record in which each
absent unit-declared field takes its default (version Unknown, author
Unknown, description "No description provided.", empty dependencies), each
field present in the external record overrides the unit-declared value and
each absent external field keeps it, and a malformed external record only
warns: resolution proceeds with the unit-declared fields and a load of a
well-formed module still succeeds. -/
theorem C7_metadata_resolution (env : AddonEnv) (id : String) (m : AddonModule) :
    ((env.metaFiles id = ExternalSource.absent ∨ env.metaFiles id = ExternalSource.malformed) →
      load_addon_metadata env id m =
        { name := id, version := m.version.getD "Unknown", author := m.author.getD "Unknown",
          description := m.doc.getD "No description provided.",
          dependencies := m.dependencies.getD [] }) ∧
    (∀ r, env.metaFiles id = ExternalSource.record r →
      ((∀ v, r.version = some v → (load_addon_metadata env id m).version = v) ∧
       (r.version = none → (load_addon_metadata env id m).version = m.version.getD "Unknown") ∧
       (∀ v, r.author = some v → (load_addon_metadata env id m).author = v) ∧
       (r.author = none → (load_addon_metadata env id m).author = m.author.getD "Unknown") ∧
       (∀ v, r.description = some v → (load_addon_metadata env id m).description = v) ∧
       (r.description = none →
         (load_addon_metadata env id m).description = m.doc.getD "No description provided.") ∧
       (∀ ds, r.dependencies = some ds → (load_addon_metadata env id m).dependencies = ds) ∧
       (r.dependencies = none →
         (load_addon_metadata env id m).dependencies = m.dependencies.getD []))) ∧
    (env.metaFiles id = ExternalSource.malformed →
      ∀ s, alistLookup s.loaded_addons id = none →
        env.modules id = some m →
        hasCallableAttr m "initialize" = true → hasCallableAttr m "shutdown" = true →
        (load_addon env id s).1 = LoadResult.success) := by
  rcases hf : env.metaFiles id with _ | _ | r
  · refine ⟨fun _ => by simp [load_addon_metadata, hf], ?_, ?_⟩
    · intro r hr
      cases hr
    · intro hr
      cases hr
  · refine ⟨fun _ => by simp [load_addon_metadata, hf], ?_, ?_⟩
    · intro r hr
      cases hr
    · intro _ s h1 hm2 hi hs2
      simp [load_addon, h1, hm2, hi, hs2]
  · refine ⟨?_, ?_, ?_⟩
    · intro hr
      rcases hr with hr | hr <;> cases hr
    · intro r2 hr2
      cases hr2
      refine ⟨fun v hv => ?_, fun hv => ?_, fun v hv => ?_, fun hv => ?_, fun v hv => ?_,
              fun hv => ?_, fun ds hv => ?_, fun hv => ?_⟩ <;>
        simp [load_addon_metadata, updateMetadata, hf, hv]
    · intro hr
      cases hr

/-- Concrete instance of C7_metadata_resolution: with a malformed metadata
file, resolution yields the defaulted unit-declared record and the load of
a well-formed module still succeeds. -/
theorem C7_metadata_resolution_w :
    load_addon_metadata envMalformedA "A" modOk =
      { name := "A", version := "Unknown", author := "Unknown",
        description := "No description provided.", dependencies := [] } ∧
    (load_addon envMalformedA "A" emptyState).1 = LoadResult.success :=
  have h := C7_metadata_resolution envMalformedA "A" modOk
  ⟨h.1 (Or.inr rfl), h.2.2 rfl emptyState rfl rfl rfl rfl⟩

/-! ### Claim C9 -/

/-- Claim C9 as stated is false on the code: it asserts that invocation
fails with CapabilityNotFound whenever the active unit exposes no callable
of the given name.  The active module of stWithX exposes the non-callable
attribute x, hence no callable named x, yet invoking x does not fail with
CapabilityNotFound: the source only checks hasattr, so the call attempt
itself raises a TypeError. -/
theorem C9_cex :
    (alistLookup stWithX.active_addons "A").isSome = true ∧
    hasCallableAttr modWithX "x" = false ∧
    execute_addon_function "A" "x" stWithX ≠ InvokeResult.capabilityNotFound ∧
    execute_addon_function "A" "x" stWithX = InvokeResult.notCallable := by
  decide

/-- Claim C9 (amended): invocation fails with NotActive whenever the
identifier is not Active (including never loaded); fails with
CapabilityNotFound whenever the active unit has no attribute of the given
name; a non-callable attribute of that name makes the call attempt itself
fail with a type failure rather than CapabilityNotFound; otherwise the
callable is dispatched synchronously, returning its value or propagating
its failure unchanged.  The function never mutates the registry (it
returns no state). -/
theorem C9_invoke_amended (s : ManagerState) (id fn : String) :
    (alistLookup s.active_addons id = none →
      execute_addon_function id fn s = InvokeResult.notActive) ∧
    (∀ m, alistLookup s.active_addons id = some m →
      ((alistLookup m.attrs fn = none →
         execute_addon_function id fn s = InvokeResult.capabilityNotFound) ∧
       (∀ v, alistLookup m.attrs fn = some (ModAttr.nonCallable v) →
         execute_addon_function id fn s = InvokeResult.notCallable) ∧
       (∀ v, alistLookup m.attrs fn = some (ModAttr.callable (CallResult.ok v)) →
         execute_addon_function id fn s = InvokeResult.ok v) ∧
       (∀ msg, alistLookup m.attrs fn = some (ModAttr.callable (CallResult.exn msg)) →
         execute_addon_function id fn s = InvokeResult.unitFailure msg))) := by
  constructor
  · intro h
    simp [execute_addon_function, h]
  · intro m hm
    exact ⟨fun h => by simp [execute_addon_function, hm, h],
           fun v h => by simp [execute_addon_function, hm, h],
           fun v h => by simp [execute_addon_function, hm, h],
           fun msg h => by simp [execute_addon_function, hm, h]⟩

/-- Concrete instance of C9_invoke_amended: a never-loaded identifier
fails with NotActive, a missing attribute fails with CapabilityNotFound, a
working capability returns its value, and a failing capability propagates
its failure. -/
theorem C9_invoke_amended_w :
    execute_addon_function "B" "fn" stWithX = InvokeResult.notActive ∧
    execute_addon_function "A" "missing_fn" stWithX = InvokeResult.capabilityNotFound ∧
    execute_addon_function "A" "fn" stWithX = InvokeResult.ok "result" ∧
    execute_addon_function "A" "bad" stWithX = InvokeResult.unitFailure "oops" :=
  ⟨(C9_invoke_amended stWithX "B" "fn").1 rfl,
   ((C9_invoke_amended stWithX "A" "missing_fn").2 modWithX rfl).1 rfl,
   ((C9_invoke_amended stWithX "A" "fn").2 modWithX rfl).2.2.1 "result" rfl,
   ((C9_invoke_amended stWithX "A" "bad").2 modWithX rfl).2.2.2 "oops" rfl⟩

/-! ### Claim C10 -/

/-- Addon module declaring the dependency list B then its own name A. -/
def modSelfDepBA : AddonModule :=
  { version := none, author := none, doc := none, dependencies := some ["B", "A"]
    attrs := [("initialize", ModAttr.callable (CallResult.ok "")),
              ("shutdown", ModAttr.callable (CallResult.ok ""))] }

/-- Metadata of modSelfDepBA as resolved with no external file. -/
def mdSelfDepBA : AddonMetadata :=
  { name := "A", version := "Unknown", author := "Unknown",
    description := "No description provided.", dependencies := ["B", "A"] }

/-- Registry holding A loaded, inactive, declaring dependencies B and A. -/
def stSelfDepBA : ManagerState :=
  { loaded_addons := [("A", modSelfDepBA)], active_addons := []
    addon_metadata := [("A", mdSelfDepBA)] }

/-- Claim C10 as stated is false on the code: it asserts that activating a
loaded, non-active addon whose dependency list contains its own identifier
fails with MissingDependency naming that identifier.  Addon A declares the
dependencies B then A, and B is not active, so the check fails on B first:
the failure names B, not A. -/
theorem C10_cex :
    (alistLookup stSelfDepBA.loaded_addons "A").isSome = true ∧
    alistLookup stSelfDepBA.active_addons "A" = none ∧
    "A" ∈ mdSelfDepBA.dependencies ∧
    (activate_addon "A" stSelfDepBA).1 = ActivateResult.missingDependency "B" ∧
    (activate_addon "A" stSelfDepBA).1 ≠ ActivateResult.missingDependency "A" := by
  decide

/-- Claim C10 (amended): for a loaded addon satisfying the self-dependency
invariant (not active, and every metadata binding for it lists itself among
its dependencies), activation terminates and fails with MissingDependency
naming the first dependency in declaration order that is not Active — the
own identifier of the addon precisely when all earlier dependencies are Active —
leaving the registry unchanged; and as long as every environment used to
load or reload the identifier keeps resolving it to self-dependent
metadata, no sequence of public operations can ever make it Active. -/
theorem C10_selfdep_amended (s : ManagerState) (id : String) (m : AddonModule)
    (md : AddonMetadata)
    (hm : alistLookup s.loaded_addons id = some m)
    (hmd : alistLookup s.addon_metadata id = some md)
    (hinv : SelfDepInvariant id s) :
    (∃ d, md.dependencies.find? (fun dep => (alistLookup s.active_addons dep).isNone) = some d ∧
       activate_addon id s = (ActivateResult.missingDependency d, s, [])) ∧
    (∀ ops, (∀ op ∈ ops, opSelfDep id op = true) →
       alistLookup (runOps ops s).active_addons id = none) := by
  constructor
  · have hmem : id ∈ md.dependencies := hinv.2 (id, md) (alistLookup_mem _ _ _ hmd) rfl
    rcases hfd : md.dependencies.find? (fun dep => (alistLookup s.active_addons dep).isNone) with _ | d
    · rw [List.find?_eq_none] at hfd
      exact absurd (by simp [hinv.1]) (hfd id hmem)
    · exact ⟨d, rfl, by simp [activate_addon, hm, hinv.1, check_dependencies, hmd, hfd]⟩
  · intro ops hops
    exact (selfDepInvariant_runOps id ops s hops hinv).1

/-- Addon module declaring itself as its only dependency. -/
def modSelfDepA : AddonModule :=
  { version := none, author := none, doc := none, dependencies := some ["A"]
    attrs := [("initialize", ModAttr.callable (CallResult.ok "")),
              ("shutdown", ModAttr.callable (CallResult.ok ""))] }

/-- Metadata of modSelfDepA as resolved with no external file. -/
def mdSelfDepA : AddonMetadata :=
  { name := "A", version := "Unknown", author := "Unknown",
    description := "No description provided.", dependencies := ["A"] }

/-- Registry holding A loaded, inactive, depending only on itself. -/
def stSelfDepA : ManagerState :=
  { loaded_addons := [("A", modSelfDepA)], active_addons := []
    addon_metadata := [("A", mdSelfDepA)] }

/-- Environment that keeps materializing A as the self-dependent module. -/
def envSelfDepA : AddonEnv :=
  { modules := fun id => if id = "A" then some modSelfDepA else none
    metaFiles := fun _ => ExternalSource.absent }

/-- Concrete instance of C10_selfdep_amended: after activation attempts
and a reload against the self-dependent environment, A is still not
active. -/
theorem C10_selfdep_amended_w :
    alistLookup (runOps [Op.activate "A", Op.reload envSelfDepA "A", Op.activate "A"]
      stSelfDepA).active_addons "A" = none :=
  (C10_selfdep_amended stSelfDepA "A" modSelfDepA mdSelfDepA rfl rfl
      ⟨rfl, by decide⟩).2
    [Op.activate "A", Op.reload envSelfDepA "A", Op.activate "A"]
    (by
      intro op hop
      simp only [List.mem_cons, List.not_mem_nil, or_false] at hop
      rcases hop with rfl | rfl | rfl
      · rfl
      · decide
      · rfl)

/-! ### Claim C8 -/

theorem reload_addon_unfold (env : AddonEnv) (id : String) (s : ManagerState) (m : AddonModule)
    (hmL : alistLookup s.loaded_addons id = some m) :
    reload_addon env id s =
      (let was_active := (alistLookup s.active_addons id).isSome
       let d := deactivate_addon id s
       let s1 := if was_active then d.2.1 else s
       let ev1 := if was_active then d.2.2 else []
       let s2 : ManagerState :=
         { s1 with loaded_addons := alistErase s1.loaded_addons id
                   addon_metadata := alistErase s1.addon_metadata id }
       let l := load_addon env id s2
       if l.1 = LoadResult.success then
         if was_active then
           let a := activate_addon id l.2.1
           (decide (a.1 = ActivateResult.success), a.2.1, ev1 ++ l.2.2 ++ a.2.2)
         else (true, l.2.1, ev1 ++ l.2.2)
       else (false, l.2.1, ev1 ++ l.2.2)) := by
  unfold reload_addon
  rw [hmL]

/-- Claim C8 as stated is false on the code: it asserts that whenever the
re-load step of a reload fails, the addon ends up fully unregistered with
no active entry.  On the registry where A is active with a failing
shutdown, reloading in an environment where the import now fails removes
the loaded and metadata entries but leaves the stale active entry
behind. -/
theorem C8_cex :
    (alistLookup stBadShutdownActive.loaded_addons "A").isSome = true ∧
    envGone.modules "A" = none ∧
    (reload_addon envGone "A" stBadShutdownActive).1 = false ∧
    (alistLookup (reload_addon envGone "A" stBadShutdownActive).2.1.active_addons "A").isSome
      = true := by
  decide

/-- Claim C8 (amended): for a loaded addon on a duplicate-free registry
whose shutdown capability succeeds if it is active, reload behaves as
claimed: if the re-load step fails (the environment cannot produce a valid
module), reload returns failure and the addon is fully unregistered — no
loaded unit, no metadata, no active entry; if the re-load step succeeds
and the addon was active before, the overall reload result is success
exactly when the re-activation succeeds, namely when every dependency of
the freshly resolved metadata is active among the remaining active addons
and the initialize capability of the fresh module succeeds. -/
theorem C8_reload_amended (env : AddonEnv) (s : ManagerState) (id : String) (m : AddonModule)
    (hmL : alistLookup s.loaded_addons id = some m)
    (hndL : NoDupKeys s.loaded_addons)
    (hndM : NoDupKeys s.addon_metadata)
    (hndA : NoDupKeys s.active_addons)
    (hsd : ∀ m2, alistLookup s.active_addons id = some m2 →
      ∃ v, callAttr m2 "shutdown" = CallResult.ok v) :
    (loadable env id = false →
      (reload_addon env id s).1 = false ∧
      alistLookup (reload_addon env id s).2.1.loaded_addons id = none ∧
      alistLookup (reload_addon env id s).2.1.addon_metadata id = none ∧
      alistLookup (reload_addon env id s).2.1.active_addons id = none) ∧
    (∀ m2, env.modules id = some m2 →
      hasCallableAttr m2 "initialize" = true → hasCallableAttr m2 "shutdown" = true →
      (alistLookup s.active_addons id).isSome = true →
      ((reload_addon env id s).1 = true ↔
        ((∀ d ∈ (load_addon_metadata env id m2).dependencies,
            (alistLookup (alistErase s.active_addons id) d).isSome = true) ∧
         ∃ v, callAttr m2 "initialize" = CallResult.ok v))) := by
  constructor
  · by_cases hw : (alistLookup s.active_addons id).isSome = true
    · obtain ⟨m1, hA⟩ := Option.isSome_iff_exists.mp hw
      obtain ⟨v0, hv0⟩ := hsd m1 hA
      have hde : deactivate_addon id s =
          (DeactivateResult.success, { s with active_addons := alistErase s.active_addons id },
           [Event.shutdownCall id]) := by
        simp [deactivate_addon, hA, hv0]
      have hguard : (alistLookup (alistErase s.loaded_addons id) id).isSome = false := by
        rw [alistLookup_erase_self _ _ hndL]
        rfl
      have hre : reload_addon env id s =
          (let l := load_addon env id
            { loaded_addons := alistErase s.loaded_addons id
              active_addons := alistErase s.active_addons id
              addon_metadata := alistErase s.addon_metadata id }
           if l.1 = LoadResult.success then
             let a := activate_addon id l.2.1
             (decide (a.1 = ActivateResult.success), a.2.1,
              [Event.shutdownCall id] ++ l.2.2 ++ a.2.2)
           else (false, l.2.1, [Event.shutdownCall id] ++ l.2.2)) := by
        rw [reload_addon_unfold env id s m hmL]
        simp only [hw, hde, if_true]
      intro hlf
      have hfail := load_addon_fail_state env id
        { loaded_addons := alistErase s.loaded_addons id
          active_addons := alistErase s.active_addons id
          addon_metadata := alistErase s.addon_metadata id } hlf hguard
      rw [hre]
      simp only [if_neg hfail.1]
      rw [hfail.2]
      refine ⟨trivial, ?_, ?_, ?_⟩
      · exact alistLookup_erase_self _ _ hndL
      · exact alistLookup_erase_self _ _ hndM
      · exact alistLookup_erase_self _ _ hndA
    · have hw2 : (alistLookup s.active_addons id).isSome = false := by
        simpa using hw
      have hA : alistLookup s.active_addons id = none := by
        rcases h2 : alistLookup s.active_addons id with _ | x
        · rfl
        · rw [h2] at hw2; cases hw2
      have hguard : (alistLookup (alistErase s.loaded_addons id) id).isSome = false := by
        rw [alistLookup_erase_self _ _ hndL]
        rfl
      have hre : reload_addon env id s =
          (let l := load_addon env id
            { loaded_addons := alistErase s.loaded_addons id
              active_addons := s.active_addons
              addon_metadata := alistErase s.addon_metadata id }
           if l.1 = LoadResult.success then (true, l.2.1, [] ++ l.2.2)
           else (false, l.2.1, [] ++ l.2.2)) := by
        rw [reload_addon_unfold env id s m hmL]
        simp only [hw2, Bool.false_eq_true, if_false]
      intro hlf
      have hfail := load_addon_fail_state env id
        { loaded_addons := alistErase s.loaded_addons id
          active_addons := s.active_addons
          addon_metadata := alistErase s.addon_metadata id } hlf hguard
      rw [hre]
      simp only [if_neg hfail.1]
      rw [hfail.2]
      refine ⟨trivial, ?_, ?_, ?_⟩
      · exact alistLookup_erase_self _ _ hndL
      · exact alistLookup_erase_self _ _ hndM
      · exact hA
  · intro m2 hm2 hi2 hs2 hw
    obtain ⟨m1, hA⟩ := Option.isSome_iff_exists.mp hw
    obtain ⟨v0, hv0⟩ := hsd m1 hA
    have hde : deactivate_addon id s =
        (DeactivateResult.success, { s with active_addons := alistErase s.active_addons id },
         [Event.shutdownCall id]) := by
      simp [deactivate_addon, hA, hv0]
    have hguard : (alistLookup (alistErase s.loaded_addons id) id).isSome = false := by
      rw [alistLookup_erase_self _ _ hndL]
      rfl
    have hre : reload_addon env id s =
        (let l := load_addon env id
          { loaded_addons := alistErase s.loaded_addons id
            active_addons := alistErase s.active_addons id
            addon_metadata := alistErase s.addon_metadata id }
         if l.1 = LoadResult.success then
           let a := activate_addon id l.2.1
           (decide (a.1 = ActivateResult.success), a.2.1,
            [Event.shutdownCall id] ++ l.2.2 ++ a.2.2)
         else (false, l.2.1, [Event.shutdownCall id] ++ l.2.2)) := by
      rw [reload_addon_unfold env id s m hmL]
      simp only [hw, hde, if_true]
    have hload := load_addon_success_state env id
        { loaded_addons := alistErase s.loaded_addons id
          active_addons := alistErase s.active_addons id
          addon_metadata := alistErase s.addon_metadata id } m2 hm2 hi2 hs2 hguard
    rw [hre]
    simp only [hload]
    simp only [if_true, decide_eq_true_eq]
    exact activate_success_iff _ id m2 (load_addon_metadata env id m2)
      (alistLookup_insert_self _ _ _) (alistLookup_erase_self _ _ hndA)
      (alistLookup_insert_self _ _ _)

/-- Concrete instance of C8_reload_amended: reloading the active,
well-formed addon A against an environment that still provides it
succeeds. -/
theorem C8_reload_amended_w :
    (reload_addon envOkA "A" stOkActive).1 = true :=
  have h := C8_reload_amended envOkA stOkActive "A" modOk rfl
    (by decide) (by decide) (by decide)
    (by
      intro m2 hm
      have h2 : some modOk = some m2 := hm
      cases h2
      exact ⟨"", rfl⟩)
  (h.2 modOk rfl rfl rfl rfl).mpr ⟨by decide, "", rfl⟩
